import Mathlib

/-!
Verification of `nb.py`: a single-threaded batch script that drives a
generative-image service to produce one master image per text prompt and a
set of pose variants conditioned on that master image.

The embedding is a shallow one: each relevant piece of the script becomes a
Lean definition over an explicit event trace.  Bytes are `List Nat`; the
service-response object mirrors the `google.genai` response shape the code
actually touches (`response.candidates[0].content.parts[*].inline_data.data`),
with every field that Python allows to be `None` made an `Option`.  The
external image library (PIL `Image.open` followed by `img.save`) is modelled
by an abstract encoder parameter `enc : Bytes → Bytes`: `save_image` hands the
part's raw bytes to it and the resulting bytes are what reaches the disk.
Python attribute access on `None` raises `AttributeError`; fallible code
therefore returns `Except PyErr`.
-/

namespace NB

/-- Raw byte strings. -/
abbrev Bytes := List Nat

/-- `types.Blob`: inline binary image data with its payload (`.data`). -/
structure Blob where
  data : Bytes
deriving DecidableEq, Repr

/-- `types.Part`: one content part; `inline_data` is `None` for text parts. -/
structure Part where
  inline_data : Option Blob
deriving DecidableEq, Repr

/-- `types.Content`: `parts` may be `None` or a list. -/
structure Content where
  parts : Option (List Part)
deriving DecidableEq, Repr

/-- `types.Candidate`: `content` may be `None` (e.g. safety-blocked). -/
structure Candidate where
  content : Option Content
deriving DecidableEq, Repr

/-- The service response: `candidates` may be `None` or a list. -/
structure Response where
  candidates : Option (List Candidate)
deriving DecidableEq, Repr

/-- Python exceptions that the embedded code can raise. -/
inductive PyErr where
  | attributeError
  | fileNotFoundError
deriving DecidableEq, Repr

/-- Observable effects of the script, in program order. -/
inductive Ev where
  | mkdirs (path : String) (exist_ok : Bool)
  | fileRead (path : String)
  | masterRequest (model : String) (image : Bytes) (text : String)
  | poseRequest (model : String) (image : Bytes) (text : String)
  | fileWrite (path : String) (data : Bytes)
  | printLine (s : String)
  | sleep (secs : Nat)
deriving DecidableEq, Repr

/-- `os.path.join` for the two-component joins the script performs. -/
def pjoin (a b : String) : String := a ++ "/" ++ b

-- Fixed paths (nb.py lines 24-26).
def REF_FACE_PATH : String := "reference image face"

def PROMPTS_FOLDER : String := "prompts"

def OUTPUT_BASE : String := "output folder"

/-- The whitespace set of Python `str.strip()` with no argument. -/
def isPyWhitespace (c : Char) : Bool :=
  c = ' ' || c = '\t' || c = '\n' || c = '\r' || c = '\x0b' || c = '\x0c'

/-- Python `str.strip()`: drop whitespace from both ends. -/
def pyStrip (s : String) : String :=
  String.mk (((s.data.dropWhile isPyWhitespace).reverse.dropWhile isPyWhitespace).reverse)

/-- Python `str.lower()` (ASCII case, which is all the script compares). -/
def pyLower (s : String) : String := String.mk (s.data.map Char.toLower)

/-- Python slicing `s[:n]` (by code points). -/
def pyTake (n : Nat) (s : String) : String := String.mk (s.data.take n)

/-- The model map (nb.py lines 32-35). -/
def MODELS : List (String × String) :=
  [("1", "gemini-2.5-flash-image"), ("2", "gemini-3-pro-image-preview")]

/-- Model selection (nb.py lines 78-80): the operator line is stripped, then
looked up in `MODELS` with the flash model as default. -/
def selectModel (raw : String) : String :=
  (MODELS.lookup (pyStrip raw)).getD "gemini-2.5-flash-image"

/-- The `for part in ...parts` loop body of `save_image` (nb.py lines 49-54):
scan the parts in order; at the first part with `inline_data`, write the
PIL-processed image to `path`, print, and return that part's raw bytes. -/
def saveScan (enc : Bytes → Bytes) (path : String) : List Part → Option Bytes × List Ev
  | [] => (none, [])
  | p :: ps =>
    match p.inline_data with
    | some b =>
      (some b.data,
        [Ev.fileWrite path (enc b.data), Ev.printLine ("   ✅ Saved: " ++ path)])
    | none => saveScan enc path ps

/-- `save_image(response, path)` (nb.py lines 46-55).  The guard is
`if response.candidates and response.candidates[0].content.parts:` -- when
`candidates` is `None` or empty the short-circuit yields `None`; otherwise
Python evaluates `.content.parts`, raising `AttributeError` when `content`
is `None`; a `None` or empty `parts` is falsy and yields `None`. -/
def save_image (enc : Bytes → Bytes) (response : Response) (path : String) :
    Except PyErr (Option Bytes × List Ev) :=
  match response.candidates with
  | none => Except.ok (none, [])
  | some [] => Except.ok (none, [])
  | some (c :: _) =>
    match c.content with
    | none => Except.error PyErr.attributeError
    | some ct =>
      match ct.parts with
      | none => Except.ok (none, [])
      | some [] => Except.ok (none, [])
      | some ps => Except.ok (saveScan enc path ps)

/-- Specification-side scanner: the data of the first part carrying inline
image data, scanning in order. -/
def firstInline : List Part → Option Bytes
  | [] => none
  | p :: ps =>
    match p.inline_data with
    | some b => some b.data
    | none => firstInline ps

theorem saveScan_of_firstInline (enc : Bytes → Bytes) (path : String) :
    ∀ ps d, firstInline ps = some d →
      saveScan enc path ps =
        (some d, [Ev.fileWrite path (enc d), Ev.printLine ("   ✅ Saved: " ++ path)]) := by
  intro ps
  induction ps with
  | nil => intro d h; simp [firstInline] at h
  | cons p ps ih =>
    intro d h
    cases hp : p.inline_data with
    | some b =>
      simp [firstInline, hp] at h
      simp [saveScan, hp, h]
    | none =>
      simp [firstInline, hp] at h
      simpa [saveScan, hp] using ih d h

theorem saveScan_of_firstInline_none (enc : Bytes → Bytes) (path : String) :
    ∀ ps, firstInline ps = none → saveScan enc path ps = (none, []) := by
  intro ps
  induction ps with
  | nil => intro _; rfl
  | cons p ps ih =>
    intro h
    cases hp : p.inline_data with
    | some b => simp [firstInline, hp] at h
    | none =>
      simp [firstInline, hp] at h
      simpa [saveScan, hp] using ih h

/-- Outcome of one `client.models.generate_content` call: the service either
raises or returns a response object. -/
inductive CallResult where
  | raise
  | ok (r : Response)
deriving DecidableEq, Repr

/-- The master-image instruction template (nb.py lines 107-111). -/
def master_prompt (prompt_text : String) : String :=
  "\n    Fashion photography of [the person in the reference image].\n    "
    ++ prompt_text
    ++ "\n    CRITICAL: Maintain the facial identity of the reference image exactly.\n    "

/-- The pose instruction template (nb.py lines 148-155). -/
def pose_prompt (pose : String) : String :=
  "\n        TASK: Create a variation of the [ATTACHED IMAGE].\n        \n        INSTRUCTIONS:\n        1. Keep the exact character (face, hair, clothes) from the [ATTACHED IMAGE].\n        2. Keep the exact background environment from the [ATTACHED IMAGE].\n        3. CHANGE ONLY THE POSE to: "
    ++ pose ++ ".\n        "

/-- One iteration of the pose loop (nb.py lines 145-172) at index `i`: print
the progress header, issue the request; on a service exception the `except`
branch prints the failure; otherwise `save_image` runs (its own
`AttributeError` is caught by the same `except`) and, when it returns
without raising, `time.sleep(2)` runs inside the `try`. -/
def poseIter (enc : Bytes → Bytes) (model : String) (masterBytes : Bytes)
    (dir : String) (total : Nat) (i : Nat) (pose : String) (res : CallResult) : List Ev :=
  Ev.printLine ("      [" ++ toString (i + 1) ++ "/" ++ toString total ++ "] " ++ pose ++ "...") ::
  Ev.poseRequest model masterBytes (pose_prompt pose) ::
  match res with
  | CallResult.raise => [Ev.printLine "      ❌ Pose failed"]
  | CallResult.ok r =>
    match save_image enc r (pjoin dir ("pose_" ++ toString (i + 1) ++ ".png")) with
    | Except.error _ => [Ev.printLine "      ❌ Pose failed"]
    | Except.ok (_, evs) => evs ++ [Ev.sleep 2]

/-- The pose loop `for i, pose in enumerate(POSES)` starting at index `i`;
`res` gives each iteration's service outcome. -/
def poseLoop (enc : Bytes → Bytes) (model : String) (masterBytes : Bytes)
    (dir : String) (total : Nat) (res : Nat → CallResult) :
    List String → Nat → List Ev
  | [], _ => []
  | p :: ps, i =>
      poseIter enc model masterBytes dir total i p (res i)
        ++ poseLoop enc model masterBytes dir total res ps (i + 1)

/-- `os.path.splitext(s)[0]` restricted to what the script needs: the prefix
of `s` up to its last dot, where the leading dots of the name belong to the
root (so ".txt" has no extension). -/
def lastDotPrefix : List Char → Option (List Char)
  | [] => none
  | c :: cs =>
    match lastDotPrefix cs with
    | some pre => some (c :: pre)
    | none => if c = '.' then some [] else none

def splitextRoot (s : String) : String :=
  let lead := s.data.takeWhile (fun c => c = '.')
  let rest := s.data.drop lead.length
  match lastDotPrefix rest with
  | none => s
  | some pre => String.mk (lead ++ pre)

/-- One iteration of the per-prompt loop (nb.py lines 85-174), as the trace
of events it emits.  Inputs that the real run draws from the world are
parameters: the prompt file's content, the epoch-second `run_id`, the
outcome of the master call, the operator's answer line, the pose list (the
script imports it from `pose.py`) and the per-pose outcomes. -/
def promptStep (enc : Bytes → Bytes) (model : String) (face_bytes : Bytes)
    (filename : String) (fileContent : String) (run_id : Nat)
    (masterRes : CallResult) (answer : String)
    (poses : List String) (poseRes : Nat → CallResult) : List Ev :=
  let clean_name := splitextRoot filename
  let txt_path := pjoin PROMPTS_FOLDER filename
  let dir := pjoin (pjoin OUTPUT_BASE clean_name) ("run_" ++ toString run_id)
  let prompt_text := pyStrip fileContent
  let master_path := pjoin dir "00_MASTER_CONCEPT.png"
  Ev.mkdirs dir true ::
  Ev.fileRead txt_path ::
  Ev.printLine "------------------------------------------------------" ::
  Ev.printLine ("📂 Processing: " ++ filename) ::
  Ev.printLine ("📝 Prompt: " ++ pyTake 60 prompt_text ++ "...") ::
  Ev.printLine ("💾 Saving to: .../" ++ clean_name ++ "/run_" ++ toString run_id ++ "/") ::
  Ev.printLine ("   🎨 Generating Concept Image using " ++ model ++ "...") ::
  Ev.masterRequest model face_bytes (master_prompt prompt_text) ::
  match masterRes with
  | CallResult.raise => [Ev.printLine "   ❌ Error generating concept"]
  | CallResult.ok r =>
    match save_image enc r master_path with
    | Except.error _ => [Ev.printLine "   ❌ Error generating concept"]
    | Except.ok (mb, evs) =>
      evs ++
      match mb with
      | none => [Ev.printLine "   ⚠️ Failed to generate concept image. Skipping."]
      | some d =>
        if d = [] then [Ev.printLine "   ⚠️ Failed to generate concept image. Skipping."]
        else
          Ev.printLine ("\n   👀 Check the image at: " ++ master_path) ::
          if pyLower (pyStrip answer) = "y" then
            Ev.printLine ("   📸 Generating " ++ toString poses.length
                ++ " poses using " ++ model ++ "...") ::
            (poseLoop enc model d dir poses.length poseRes poses 0
              ++ [Ev.printLine ("   ✨ All poses finished for " ++ clean_name ++ ".")])
          else [Ev.printLine "   ⏩ Skipping poses. Moving to next prompt."]

-- Event classifiers.
def isPoseReq : Ev → Bool
  | Ev.poseRequest _ _ _ => true
  | _ => false

def isMkdirs : Ev → Bool
  | Ev.mkdirs _ _ => true
  | _ => false

def isSleep : Ev → Bool
  | Ev.sleep _ => true
  | _ => false

def isPrint : Ev → Bool
  | Ev.printLine _ => true
  | _ => false

/-- The files a trace writes, in order, as (path, bytes) pairs. -/
def writesOf (tr : List Ev) : List (String × Bytes) :=
  tr.filterMap fun ev =>
    match ev with
    | Ev.fileWrite p d => some (p, d)
    | _ => none

theorem saveScan_events (enc : Bytes → Bytes) (path : String) :
    ∀ ps, ∀ ev ∈ (saveScan enc path ps).2,
      isPoseReq ev = false ∧ isMkdirs ev = false ∧ isSleep ev = false := by
  intro ps
  induction ps with
  | nil => intro ev h; simp [saveScan] at h
  | cons p ps ih =>
    intro ev h
    cases hp : p.inline_data with
    | some b =>
      simp [saveScan, hp] at h
      rcases h with h | h <;> subst h <;> simp [isPoseReq, isMkdirs, isSleep]
    | none =>
      rw [saveScan, hp] at h
      exact ih ev h

theorem save_image_events (enc : Bytes → Bytes) (r : Response) (path : String)
    (mb : Option Bytes) (evs : List Ev)
    (h : save_image enc r path = Except.ok (mb, evs)) :
    ∀ ev ∈ evs, isPoseReq ev = false ∧ isMkdirs ev = false ∧ isSleep ev = false := by
  intro ev hev
  unfold save_image at h
  split at h
  · simp only [Except.ok.injEq, Prod.mk.injEq] at h
    obtain ⟨h1, h2⟩ := h
    subst h2
    simp at hev
  · simp only [Except.ok.injEq, Prod.mk.injEq] at h
    obtain ⟨h1, h2⟩ := h
    subst h2
    simp at hev
  · split at h
    · exact absurd h (by simp)
    · split at h
      · simp only [Except.ok.injEq, Prod.mk.injEq] at h
        obtain ⟨h1, h2⟩ := h
        subst h2
        simp at hev
      · simp only [Except.ok.injEq, Prod.mk.injEq] at h
        obtain ⟨h1, h2⟩ := h
        subst h2
        simp at hev
      · rename_i ps hne heq
        simp only [Except.ok.injEq] at h
        have hall := saveScan_events enc path ps ev
        rw [h] at hall
        exact hall hev

/-- C2: given a service response and a target path, `save_image` scans the
first candidate's content parts in order, writes exactly one file -- at the
given path, holding the image produced from the first inline part's bytes --
and returns that part's raw bytes. -/
theorem c2_save_image_first_inline_part
    (enc : Bytes → Bytes) (r : Response) (path : String)
    (c : Candidate) (cs : List Candidate) (ct : Content) (ps : List Part) (d : Bytes)
    (hc : r.candidates = some (c :: cs)) (hct : c.content = some ct)
    (hps : ct.parts = some ps) (hd : firstInline ps = some d) :
    save_image enc r path =
      Except.ok (some d,
        [Ev.fileWrite path (enc d), Ev.printLine ("   ✅ Saved: " ++ path)]) := by
  obtain ⟨cands⟩ := r
  obtain ⟨cc⟩ := c
  obtain ⟨cp⟩ := ct
  dsimp only at hc hct hps
  subst hc
  subst hct
  subst hps
  cases ps with
  | nil => simp [firstInline] at hd
  | cons p ps' =>
    show Except.ok (saveScan enc path (p :: ps')) = _
    rw [saveScan_of_firstInline enc path (p :: ps') d hd]

/-- A part carrying no inline data (a text part). -/
def textPart : Part := { inline_data := none }

/-- A part carrying inline image bytes `d`. -/
def imgPart (d : Bytes) : Part := { inline_data := some { data := d } }

/-- A response with a single candidate holding the given parts. -/
def respOf (ps : List Part) : Response :=
  { candidates := some [{ content := some { parts := some ps } }] }

/-- A response with a present candidate whose `content` is absent. -/
def noContentResp : Response := { candidates := some [{ content := none }] }

/-- A response with no candidates at all. -/
def emptyResp : Response := { candidates := none }

/-- Witness for `c2_save_image_first_inline_part`: a two-part response whose
second part is the first inline one. -/
theorem c2_witness :
    save_image id (respOf [textPart, imgPart [7, 8]]) "out.png" =
      Except.ok (some [7, 8],
        [Ev.fileWrite "out.png" [7, 8], Ev.printLine ("   ✅ Saved: " ++ "out.png")]) :=
  c2_save_image_first_inline_part id _ "out.png" _ [] _ _ [7, 8] rfl rfl rfl rfl

/-- C3 counterexample: a response with a present candidate whose `content` is
absent ("no content") makes `save_image` raise `AttributeError` (Python
evaluates `response.candidates[0].content.parts` with `content = None`)
instead of returning the "not found" signal. -/
theorem c3_counterexample :
    save_image id noContentResp "out.png" = Except.error PyErr.attributeError := rfl

/-- C3 (amended): when the response has no candidate, or its first candidate
has content whose parts are absent, empty, or carry no inline image data,
`save_image` returns the "not found" signal -- no bytes and no events (so no
file write) -- without raising; but a present first candidate with absent
content raises `AttributeError` (caught by the callers' `try` blocks). -/
theorem c3_not_found_signal (enc : Bytes → Bytes) (r : Response) (path : String)
    (h : r.candidates = none ∨ r.candidates = some [] ∨
      ∃ c cs ct, r.candidates = some (c :: cs) ∧ c.content = some ct ∧
        (ct.parts = none ∨ ∃ ps, ct.parts = some ps ∧ firstInline ps = none)) :
    save_image enc r path = Except.ok (none, []) := by
  obtain ⟨cands⟩ := r
  rcases h with h | h | ⟨c, cs, ct, hc, hct, hp⟩
  · dsimp only at h
    subst h
    rfl
  · dsimp only at h
    subst h
    rfl
  · obtain ⟨cc⟩ := c
    obtain ⟨cp⟩ := ct
    dsimp only at hc hct
    subst hc
    subst hct
    rcases hp with hp | ⟨ps, hps, hfi⟩
    · dsimp only at hp
      subst hp
      rfl
    · dsimp only at hps
      subst hps
      cases ps with
      | nil => rfl
      | cons p ps' =>
        show Except.ok (saveScan enc path (p :: ps')) = _
        rw [saveScan_of_firstInline_none enc path (p :: ps') hfi]

/-- Witness for `c3_not_found_signal`: a response whose single candidate has
one text-only part. -/
theorem c3_witness :
    save_image id (respOf [textPart]) "out.png" = Except.ok (none, []) :=
  c3_not_found_signal id _ "out.png"
    (Or.inr (Or.inr ⟨_, [], _, rfl, rfl, Or.inr ⟨[textPart], rfl, rfl⟩⟩))

/-- Whether a call result is a non-raising one. -/
def exceptIsOk : Except PyErr (Option Bytes × List Ev) → Bool
  | Except.ok _ => true
  | Except.error _ => false

/-- C4 counterexample: a pose iteration whose service call raises contains no
pause at all, although it did issue a pose request -- the `time.sleep(2)`
sits inside the `try` block, so the `except` path skips it. -/
theorem c4_counterexample :
    (poseIter id "m" [0] "d" 1 0 "standing" CallResult.raise).any isSleep = false ∧
    (poseIter id "m" [0] "d" 1 0 "standing" CallResult.raise).any isPoseReq = true :=
  ⟨rfl, rfl⟩

/-- C4 (amended): the fixed 2-second pause happens after exactly those pose
iterations in which no exception was raised (the service call returned and
`save_image` did not raise); an iteration that raises skips the pause.  The
pause also runs after the final pose, not only between consecutive ones. -/
theorem c4_pause_iff_no_exception (enc : Bytes → Bytes) (model : String)
    (mb : Bytes) (dir : String) (total i : Nat) (pose : String) (res : CallResult) :
    (poseIter enc model mb dir total i pose res).any isSleep =
      (match res with
       | CallResult.raise => false
       | CallResult.ok r =>
          exceptIsOk (save_image enc r (pjoin dir ("pose_" ++ toString (i + 1) ++ ".png")))) := by
  cases res with
  | raise => simp [poseIter, isSleep]
  | ok r =>
    cases hs : save_image enc r (pjoin dir ("pose_" ++ toString (i + 1) ++ ".png")) with
    | error e => simp [poseIter, hs, isSleep, exceptIsOk]
    | ok pr =>
      obtain ⟨mb', evs⟩ := pr
      simp [poseIter, hs, exceptIsOk, isSleep]

/-- Each pose iteration issues exactly one pose request, whatever its
outcome. -/
theorem poseIter_filter_poseReq (enc : Bytes → Bytes) (model : String)
    (mb : Bytes) (dir : String) (total i : Nat) (pose : String) (res : CallResult) :
    (poseIter enc model mb dir total i pose res).filter isPoseReq =
      [Ev.poseRequest model mb (pose_prompt pose)] := by
  cases res with
  | raise => simp [poseIter, isPoseReq]
  | ok r =>
    cases hs : save_image enc r (pjoin dir ("pose_" ++ toString (i + 1) ++ ".png")) with
    | error e => simp [poseIter, hs, isPoseReq]
    | ok pr =>
      obtain ⟨mb', evs⟩ := pr
      have hevs : ∀ ev ∈ evs, isPoseReq ev = false := fun ev h =>
        (save_image_events enc r _ mb' evs hs ev h).1
      simp [poseIter, hs, isPoseReq, List.filter_eq_nil_iff.mpr (by simpa using hevs)]

/-- C5 counterexample: a pose whose request returns but carries no image data
is skipped silently -- the iteration's only console output is the progress
header printed before the request, so the empty outcome is not logged. -/
theorem c5_counterexample :
    ((poseIter id "m" [0] "d" 1 0 "standing" (CallResult.ok emptyResp)).filter isPrint =
      [Ev.printLine "      [1/1] standing..."]) ∧
    (poseIter id "m" [0] "d" 1 0 "standing" (CallResult.ok emptyResp) =
      [Ev.printLine "      [1/1] standing...",
       Ev.poseRequest "m" [0] (pose_prompt "standing"),
       Ev.sleep 2]) :=
  ⟨rfl, rfl⟩

/-- C5 (amended): a pose failure never aborts the remaining poses -- every
pose in the list gets its request issued, in order, whatever each outcome is
-- and a pose whose request raises gets a failure log; but a pose whose
request returns an empty result is skipped silently, with nothing logged. -/
theorem c5_failures_skip_only_that_pose (enc : Bytes → Bytes) (model : String)
    (mb : Bytes) (dir : String) (total : Nat) (res : Nat → CallResult) :
    (∀ poses i, (poseLoop enc model mb dir total res poses i).filter isPoseReq =
        poses.map fun p => Ev.poseRequest model mb (pose_prompt p)) ∧
    (∀ i pose, res i = CallResult.raise →
        Ev.printLine "      ❌ Pose failed" ∈
          poseIter enc model mb dir total i pose (res i)) := by
  constructor
  · intro poses
    induction poses with
    | nil => intro i; rfl
    | cons p ps ih =>
      intro i
      simp only [poseLoop, List.filter_append, poseIter_filter_poseReq, ih (i + 1),
        List.map]
      rfl
  · intro i pose h
    rw [h]
    simp [poseIter]

/-- Witness for `c5_failures_skip_only_that_pose`: two poses, both raising;
both requests are still issued and the failure log appears. -/
theorem c5_witness :
    ((poseLoop id "m" [0] "d" 2 (fun _ => CallResult.raise) ["standing", "sitting"] 0).filter
        isPoseReq =
      ["standing", "sitting"].map fun p => Ev.poseRequest "m" [0] (pose_prompt p)) ∧
    Ev.printLine "      ❌ Pose failed" ∈
      poseIter id "m" [0] "d" 2 0 "standing" CallResult.raise :=
  ⟨(c5_failures_skip_only_that_pose id "m" [0] "d" 2 (fun _ => CallResult.raise)).1
      ["standing", "sitting"] 0,
   (c5_failures_skip_only_that_pose id "m" [0] "d" 2 (fun _ => CallResult.raise)).2
      0 "standing" rfl⟩

/-- C6 counterexample: the operator line " 2 " is neither "1" nor "2", yet it
resolves to the second model rather than the default -- the script strips the
line before the lookup. -/
theorem c6_counterexample :
    selectModel " 2 " = "gemini-3-pro-image-preview" ∧
    (" 2 " : String) ≠ "1" ∧ (" 2 " : String) ≠ "2" ∧
    ("gemini-3-pro-image-preview" : String) ≠ "gemini-2.5-flash-image" := by
  refine ⟨rfl, ?_, ?_, ?_⟩ <;> decide

/-- C6 (amended): after stripping surrounding whitespace from the operator
line, "1" resolves to the first model, "2" to the second, and anything else
to the same default as "1". -/
theorem c6_model_selection (s : String) :
    selectModel s =
      if pyStrip s = "1" then "gemini-2.5-flash-image"
      else if pyStrip s = "2" then "gemini-3-pro-image-preview"
      else "gemini-2.5-flash-image" := by
  unfold selectModel
  by_cases h1 : pyStrip s = "1"
  · simp [ MODELS, List.lookup, h1]
  · have hb1 : (pyStrip s == "1") = false := beq_eq_false_iff_ne.mpr h1
    by_cases h2 : pyStrip s = "2"
    · simp [ MODELS, List.lookup, hb1, h1, h2]
    · have hb2 : (pyStrip s == "2") = false := beq_eq_false_iff_ne.mpr h2
      simp [ MODELS, List.lookup, hb1, hb2, h1, h2]

/-- The request of a pose iteration is always in its trace. -/
theorem poseIter_mem_request (enc : Bytes → Bytes) (model : String) (mb : Bytes)
    (dir : String) (total i : Nat) (pose : String) (res : CallResult) :
    Ev.poseRequest model mb (pose_prompt pose) ∈ poseIter enc model mb dir total i pose res := by
  simp [poseIter]

/-- C1: a pose request appears in a prompt's trace only if the master step
produced saved image bytes: the master call returned a response, `save_image`
returned without raising, and the returned bytes were non-empty (Python's
truthiness test `if not master_image_bytes`). -/
theorem c1_no_pose_without_master (enc : Bytes → Bytes) (model : String)
    (face_bytes : Bytes) (filename fileContent : String) (run_id : Nat)
    (masterRes : CallResult) (answer : String) (poses : List String)
    (poseRes : Nat → CallResult)
    (h : (promptStep enc model face_bytes filename fileContent run_id masterRes answer
        poses poseRes).any isPoseReq = true) :
    ∃ r d evs, masterRes = CallResult.ok r ∧
      save_image enc r
        (pjoin (pjoin (pjoin OUTPUT_BASE (splitextRoot filename))
          ("run_" ++ toString run_id)) "00_MASTER_CONCEPT.png") =
        Except.ok (some d, evs) ∧
      d ≠ [] := by
  cases masterRes with
  | raise => simp [promptStep, isPoseReq] at h
  | ok r =>
    cases hs : save_image enc r
        (pjoin (pjoin (pjoin OUTPUT_BASE (splitextRoot filename))
          ("run_" ++ toString run_id)) "00_MASTER_CONCEPT.png") with
    | error e => simp [promptStep, hs, isPoseReq] at h
    | ok pr =>
      obtain ⟨mb, evs⟩ := pr
      have hevs : ∀ ev ∈ evs, isPoseReq ev = false := fun ev hm =>
        (save_image_events enc r _ mb evs hs ev hm).1
      cases mb with
      | none =>
        exfalso
        simp [promptStep, hs, isPoseReq, List.any_eq_true] at h
        obtain ⟨ev, hm, hp⟩ := h
        have h2 := hevs ev hm
        simp only [isPoseReq] at h2
        rw [h2] at hp
        exact Bool.false_ne_true hp
      | some d =>
        by_cases hd : d = []
        · exfalso
          subst hd
          simp [promptStep, hs, isPoseReq, List.any_eq_true] at h
          obtain ⟨ev, hm, hp⟩ := h
          have h2 := hevs ev hm
          simp only [isPoseReq] at h2
          rw [h2] at hp
          exact Bool.false_ne_true hp
        · exact ⟨r, d, evs, rfl, hs, hd⟩

/-- C7: once the master image saved with non-empty bytes, pose generation is
entered exactly when the operator's line, stripped and lowercased, equals
"y": a pose request appears in the prompt's trace iff that holds. -/
theorem c7_operator_gate (enc : Bytes → Bytes) (model : String) (face_bytes : Bytes)
    (filename fileContent : String) (run_id : Nat) (r : Response) (answer : String)
    (poses : List String) (poseRes : Nat → CallResult) (d : Bytes) (evs : List Ev)
    (hs : save_image enc r
        (pjoin (pjoin (pjoin OUTPUT_BASE (splitextRoot filename))
          ("run_" ++ toString run_id)) "00_MASTER_CONCEPT.png") =
        Except.ok (some d, evs))
    (hd : d ≠ []) (hp : poses ≠ []) :
    ((promptStep enc model face_bytes filename fileContent run_id (CallResult.ok r) answer
        poses poseRes).any isPoseReq = true ↔ pyLower (pyStrip answer) = "y") := by
  have hevs : ∀ ev ∈ evs, isPoseReq ev = false := fun ev hm =>
    (save_image_events enc r _ (some d) evs hs ev hm).1
  constructor
  · intro h
    by_contra hy
    simp [promptStep, hs, hd, hy, isPoseReq, List.any_eq_true] at h
    obtain ⟨ev, hm, hpr⟩ := h
    have h2 := hevs ev hm
    simp only [isPoseReq] at h2
    rw [h2] at hpr
    exact Bool.false_ne_true hpr
  · intro hy
    rcases List.exists_cons_of_ne_nil hp with ⟨p, ps, rfl⟩
    apply List.any_eq_true.mpr
    refine ⟨Ev.poseRequest model d (pose_prompt p), ?_, by simp [isPoseReq]⟩
    have hmem := poseIter_mem_request enc model d
      (pjoin (pjoin OUTPUT_BASE (splitextRoot filename)) ("run_" ++ toString run_id))
      (p :: ps).length 0 p (poseRes 0)
    simp [promptStep, hs, hd, hy, poseLoop]
    tauto

/-- Witness for `c1_no_pose_without_master`: a fully successful prompt whose
trace does contain a pose request. -/
theorem c1_witness :
    ∃ r d evs, CallResult.ok (respOf [imgPart [3]]) = CallResult.ok r ∧
      save_image id r
        (pjoin (pjoin (pjoin OUTPUT_BASE (splitextRoot "winter.txt"))
          ("run_" ++ toString 5)) "00_MASTER_CONCEPT.png") =
        Except.ok (some d, evs) ∧
      d ≠ [] :=
  c1_no_pose_without_master id "m" [1] "winter.txt" " A red coat. " 5
    (CallResult.ok (respOf [imgPart [3]])) "y" ["standing"]
    (fun _ => CallResult.ok (respOf [imgPart [4]])) (by decide)

/-- Witness for `c7_operator_gate`: the answer " Y " proceeds (stripped and
lowercased it is "y"), and the answer "yes" does not. -/
theorem c7_witness :
    ((promptStep id "m" [1] "winter.txt" "A red coat." 5
        (CallResult.ok (respOf [imgPart [3]])) " Y " ["standing"]
        (fun _ => CallResult.ok (respOf [imgPart [4]]))).any isPoseReq = true) ∧
    ¬ ((promptStep id "m" [1] "winter.txt" "A red coat." 5
        (CallResult.ok (respOf [imgPart [3]])) "yes" ["standing"]
        (fun _ => CallResult.ok (respOf [imgPart [4]]))).any isPoseReq = true) :=
  ⟨(c7_operator_gate id "m" [1] "winter.txt" "A red coat." 5 (respOf [imgPart [3]])
      " Y " ["standing"] (fun _ => CallResult.ok (respOf [imgPart [4]]))
      [3] _ rfl (by decide) (by decide)).mpr (by decide),
   fun h =>
     absurd ((c7_operator_gate id "m" [1] "winter.txt" "A red coat." 5 (respOf [imgPart [3]])
      "yes" ["standing"] (fun _ => CallResult.ok (respOf [imgPart [4]]))
      [3] _ rfl (by decide) (by decide)).mp h) (by decide)⟩

theorem poseIter_no_mkdirs (enc : Bytes → Bytes) (model : String) (mb : Bytes)
    (dir : String) (total i : Nat) (pose : String) (res : CallResult) :
    (poseIter enc model mb dir total i pose res).filter isMkdirs = [] := by
  cases res with
  | raise => simp [poseIter, isMkdirs]
  | ok r =>
    cases hs : save_image enc r (pjoin dir ("pose_" ++ toString (i + 1) ++ ".png")) with
    | error e => simp [poseIter, hs, isMkdirs]
    | ok pr =>
      obtain ⟨mb', evs⟩ := pr
      have hevs : ∀ ev ∈ evs, ¬ isMkdirs ev = true := fun ev hm => by
        simp [(save_image_events enc r _ mb' evs hs ev hm).2.1]
      simp [poseIter, hs, isMkdirs, List.filter_eq_nil_iff.mpr hevs]

theorem poseLoop_no_mkdirs (enc : Bytes → Bytes) (model : String) (mb : Bytes)
    (dir : String) (total : Nat) (res : Nat → CallResult) :
    ∀ poses i, (poseLoop enc model mb dir total res poses i).filter isMkdirs = [] := by
  intro poses
  induction poses with
  | nil => intro i; rfl
  | cons p ps ih =>
    intro i
    simp [poseLoop, List.filter_append, poseIter_no_mkdirs, ih (i + 1)]

/-- C8: for each processed prompt, the run directory
`{output_root}/{prompt_name}/run_{unix_seconds}` is created first -- before
any generation request -- with the idempotent (`exist_ok=True`) flavour of
`makedirs`, and it is the only directory creation of the whole prompt
iteration, whatever the later outcomes are. -/
theorem c8_run_directory_once (enc : Bytes → Bytes) (model : String)
    (face_bytes : Bytes) (filename fileContent : String) (run_id : Nat)
    (masterRes : CallResult) (answer : String) (poses : List String)
    (poseRes : Nat → CallResult) :
    ((promptStep enc model face_bytes filename fileContent run_id masterRes answer
        poses poseRes).head? =
      some (Ev.mkdirs (pjoin (pjoin OUTPUT_BASE (splitextRoot filename))
        ("run_" ++ toString run_id)) true)) ∧
    ((promptStep enc model face_bytes filename fileContent run_id masterRes answer
        poses poseRes).filter isMkdirs =
      [Ev.mkdirs (pjoin (pjoin OUTPUT_BASE (splitextRoot filename))
        ("run_" ++ toString run_id)) true]) := by
  constructor
  · rfl
  · cases masterRes with
    | raise => simp [promptStep, isMkdirs]
    | ok r =>
      cases hs : save_image enc r
          (pjoin (pjoin (pjoin OUTPUT_BASE (splitextRoot filename))
            ("run_" ++ toString run_id)) "00_MASTER_CONCEPT.png") with
      | error e => simp [promptStep, hs, isMkdirs]
      | ok pr =>
        obtain ⟨mb, evs⟩ := pr
        have hevs : ∀ ev ∈ evs, ¬ isMkdirs ev = true := fun ev hm => by
          simp [(save_image_events enc r _ mb evs hs ev hm).2.1]
        have hfil : evs.filter isMkdirs = [] := List.filter_eq_nil_iff.mpr hevs
        cases mb with
        | none => simp [promptStep, hs, isMkdirs, List.filter_append, hfil]
        | some d =>
          by_cases hd : d = []
          · subst hd
            simp [promptStep, hs, isMkdirs, List.filter_append, hfil]
          · by_cases hy : pyLower (pyStrip answer) = "y"
            · simp [promptStep, hs, hd, hy, isMkdirs, List.filter_append, hfil,
                poseLoop_no_mkdirs]
            · simp [promptStep, hs, hd, hy, isMkdirs, List.filter_append, hfil]

theorem poseLoop_writes_success (enc : Bytes → Bytes) (model : String) (mb : Bytes)
    (dir : String) (total : Nat) (pd : Nat → Bytes) :
    ∀ poses i,
      writesOf (poseLoop enc model mb dir total
          (fun j => CallResult.ok (respOf [imgPart (pd j)])) poses i) =
        (List.range poses.length).map fun k =>
          (pjoin dir ("pose_" ++ toString (i + k + 1) ++ ".png"), enc (pd (i + k))) := by
  intro poses
  induction poses with
  | nil => intro i; rfl
  | cons p ps ih =>
    intro i
    have hs : save_image enc (respOf [imgPart (pd i)])
        (pjoin dir ("pose_" ++ toString (i + 1) ++ ".png")) =
        Except.ok (some (pd i),
          [Ev.fileWrite (pjoin dir ("pose_" ++ toString (i + 1) ++ ".png")) (enc (pd i)),
           Ev.printLine ("   ✅ Saved: " ++ pjoin dir ("pose_" ++ toString (i + 1) ++ ".png"))]) :=
      rfl
    have ih2 := ih (i + 1)
    simp only [writesOf] at ih2
    simp only [poseLoop, poseIter, hs, writesOf, List.filterMap_append, List.filterMap_cons,
      List.length_cons, List.range_succ_eq_map, List.map_cons, List.map_map]
    rw [ih2]
    simp only [Nat.add_zero, List.filterMap_nil, List.nil_append, List.append_nil]
    rw [List.singleton_append]
    congr 1
    apply List.map_congr_left
    intro k _
    have h1 : i + 1 + k = i + (k + 1) := by omega
    simp [Function.comp, h1]

/-- C9: a fully successful prompt -- master response carries image data with
non-empty bytes, operator answer strips and lowercases to "y", every pose
response carries image data -- writes exactly one master file
`00_MASTER_CONCEPT.png` followed by `pose_1.png` .. `pose_N.png`, 1-based and
contiguous in pose-list order, all inside the run directory. -/
theorem c9_full_success_files (enc : Bytes → Bytes) (model : String)
    (face_bytes : Bytes) (filename fileContent : String) (run_id : Nat)
    (answer : String) (poses : List String) (dm : Bytes) (pd : Nat → Bytes)
    (hd : dm ≠ []) (hy : pyLower (pyStrip answer) = "y") :
    writesOf (promptStep enc model face_bytes filename fileContent run_id
        (CallResult.ok (respOf [imgPart dm])) answer poses
        (fun j => CallResult.ok (respOf [imgPart (pd j)]))) =
      (pjoin (pjoin (pjoin OUTPUT_BASE (splitextRoot filename))
          ("run_" ++ toString run_id)) "00_MASTER_CONCEPT.png", enc dm) ::
      (List.range poses.length).map (fun k =>
        (pjoin (pjoin (pjoin OUTPUT_BASE (splitextRoot filename))
          ("run_" ++ toString run_id)) ("pose_" ++ toString (k + 1) ++ ".png"),
         enc (pd k))) := by
  have hs : save_image enc (respOf [imgPart dm])
      (pjoin (pjoin (pjoin OUTPUT_BASE (splitextRoot filename))
        ("run_" ++ toString run_id)) "00_MASTER_CONCEPT.png") =
      Except.ok (some dm,
        [Ev.fileWrite (pjoin (pjoin (pjoin OUTPUT_BASE (splitextRoot filename))
            ("run_" ++ toString run_id)) "00_MASTER_CONCEPT.png") (enc dm),
         Ev.printLine ("   ✅ Saved: " ++ pjoin (pjoin (pjoin OUTPUT_BASE
            (splitextRoot filename)) ("run_" ++ toString run_id)) "00_MASTER_CONCEPT.png")]) :=
    rfl
  have hloop := poseLoop_writes_success enc model dm
    (pjoin (pjoin OUTPUT_BASE (splitextRoot filename)) ("run_" ++ toString run_id))
    poses.length pd poses 0
  simp only [writesOf] at hloop ⊢
  simp [promptStep, hs, hd, hy, List.filterMap_append, hloop, Nat.zero_add]

/-- Witness for `c9_full_success_files`: two poses, all calls succeed. -/
theorem c9_witness :
    writesOf (promptStep id "m" [1] "winter.txt" "A red coat." 5
        (CallResult.ok (respOf [imgPart [3]])) "y" ["standing", "sitting"]
        (fun j => CallResult.ok (respOf [imgPart [j + 10]]))) =
      (pjoin (pjoin (pjoin OUTPUT_BASE (splitextRoot "winter.txt"))
          ("run_" ++ toString 5)) "00_MASTER_CONCEPT.png", [3]) ::
      (List.range 2).map (fun k =>
        (pjoin (pjoin (pjoin OUTPUT_BASE (splitextRoot "winter.txt"))
          ("run_" ++ toString 5)) ("pose_" ++ toString (k + 1) ++ ".png"), [k + 10])) :=
  c9_full_success_files id "m" [1] "winter.txt" "A red coat." 5 "y"
    ["standing", "sitting"] [3] (fun j => [j + 10]) (by decide) (by decide)

/-- One directory entry as returned by `os.listdir`: a name, which may belong
to a subdirectory rather than a regular file. -/
structure DirEntry where
  name : String
  isDir : Bool
deriving DecidableEq, Repr

/-- The slice of the filesystem the startup code touches: which directories
exist (with their entries) and which file paths exist. -/
structure FS where
  dirs : List (String × List DirEntry)
  files : List String
deriving DecidableEq, Repr

/-- `os.makedirs(p, exist_ok=True)`: create `p` empty when missing, no error
when it already exists. -/
def makedirs (p : String) (fs : FS) : FS :=
  match fs.dirs.lookup p with
  | some _ => fs
  | none => { fs with dirs := (p, []) :: fs.dirs }

/-- `os.listdir(p)`: the entries of `p`, or `FileNotFoundError` when the
directory does not exist. -/
def listdir (fs : FS) (p : String) : Except PyErr (List DirEntry) :=
  match fs.dirs.lookup p with
  | some es => Except.ok es
  | none => Except.error PyErr.fileNotFoundError

/-- Python `s.endswith(suffix)`. -/
def pyEndswith (s suffix : String) : Bool := suffix.data.isSuffixOf s.data

/-- How the startup sequence (nb.py lines 28-29 and 62-73) ends. -/
inductive StartupOutcome where
  | fatalNoFace
  | fatalNoPrompts
  | ready (promptFiles : List String)
deriving DecidableEq, Repr

/-- The startup sequence of nb.py after configuration: `makedirs` on the
prompts folder and the output root (lines 28-29), the reference-face
existence check (line 62), and the prompts scan
`[f for f in os.listdir(PROMPTS_FOLDER) if f.endswith(".txt")]` with the
fatal empty-set exit (lines 70-73). -/
def startup (fs0 : FS) : Except PyErr StartupOutcome :=
  let fs1 := makedirs PROMPTS_FOLDER fs0
  let fs2 := makedirs OUTPUT_BASE fs1
  if fs2.files.contains REF_FACE_PATH then
    match listdir fs2 PROMPTS_FOLDER with
    | Except.error e => Except.error e
    | Except.ok entries =>
      let files := (entries.filter fun e => pyEndswith e.name ".txt").map DirEntry.name
      if files.isEmpty then Except.ok StartupOutcome.fatalNoPrompts
      else Except.ok (StartupOutcome.ready files)
  else Except.ok StartupOutcome.fatalNoFace

theorem makedirs_files (p : String) (fs : FS) : (makedirs p fs).files = fs.files := by
  unfold makedirs
  split <;> rfl

theorem makedirs_lookup_self (p : String) (fs : FS) :
    (makedirs p fs).dirs.lookup p = some ((fs.dirs.lookup p).getD []) := by
  unfold makedirs
  cases h : fs.dirs.lookup p with
  | some es => simp [h]
  | none => simp [List.lookup, h]

theorem makedirs_lookup_other (p q : String) (fs : FS) (h : p ≠ q) :
    (makedirs q fs).dirs.lookup p = fs.dirs.lookup p := by
  unfold makedirs
  cases hq : fs.dirs.lookup q with
  | some es => rfl
  | none => simp [List.lookup, beq_eq_false_iff_ne.mpr h]

/-- C10: startup creates the prompts directory and the output root when
missing (so both exist afterwards), the prompts listing can therefore never
fail -- `startup` always returns without raising -- and when the reference
face exists, a missing prompts directory yields the fatal empty-prompt-set
exit; the scan keeps every directory entry whose name ends in ".txt",
including subdirectory entries (`isDir` is never consulted). -/
theorem c10_startup_scan (fs : FS) :
    ((makedirs OUTPUT_BASE (makedirs PROMPTS_FOLDER fs)).dirs.lookup PROMPTS_FOLDER ≠ none ∧
     (makedirs OUTPUT_BASE (makedirs PROMPTS_FOLDER fs)).dirs.lookup OUTPUT_BASE ≠ none) ∧
    (∃ o, startup fs = Except.ok o) ∧
    (fs.files.contains REF_FACE_PATH = true →
      fs.dirs.lookup PROMPTS_FOLDER = none →
      startup fs = Except.ok StartupOutcome.fatalNoPrompts) ∧
    (∀ entries e, fs.files.contains REF_FACE_PATH = true →
      fs.dirs.lookup PROMPTS_FOLDER = some entries →
      e ∈ entries → pyEndswith e.name ".txt" = true →
      ∃ names, startup fs = Except.ok (StartupOutcome.ready names) ∧ e.name ∈ names) := by
  have hne : PROMPTS_FOLDER ≠ OUTPUT_BASE := by decide
  have hlk : (makedirs OUTPUT_BASE (makedirs PROMPTS_FOLDER fs)).dirs.lookup PROMPTS_FOLDER
      = some ((fs.dirs.lookup PROMPTS_FOLDER).getD []) := by
    rw [makedirs_lookup_other PROMPTS_FOLDER OUTPUT_BASE _ hne, makedirs_lookup_self]
  have hlk2 : (makedirs OUTPUT_BASE (makedirs PROMPTS_FOLDER fs)).dirs.lookup OUTPUT_BASE
      = some (((makedirs PROMPTS_FOLDER fs).dirs.lookup OUTPUT_BASE).getD []) :=
    makedirs_lookup_self _ _
  have hfiles : (makedirs OUTPUT_BASE (makedirs PROMPTS_FOLDER fs)).files = fs.files := by
    rw [makedirs_files, makedirs_files]
  have hstart : startup fs =
      (if fs.files.contains REF_FACE_PATH then
        (if ((((fs.dirs.lookup PROMPTS_FOLDER).getD []).filter
            fun e => pyEndswith e.name ".txt").map DirEntry.name).isEmpty then
          Except.ok StartupOutcome.fatalNoPrompts
        else
          Except.ok (StartupOutcome.ready
            ((((fs.dirs.lookup PROMPTS_FOLDER).getD []).filter
              fun e => pyEndswith e.name ".txt").map DirEntry.name)))
      else Except.ok StartupOutcome.fatalNoFace) := by
    simp only [startup, listdir, hlk, hfiles]
  refine ⟨⟨by simp [hlk], by simp [hlk2]⟩, ?_, ?_, ?_⟩
  · rw [hstart]
    by_cases hface : fs.files.contains REF_FACE_PATH = true
    · rw [if_pos hface]
      split
      · exact ⟨_, rfl⟩
      · exact ⟨_, rfl⟩
    · rw [if_neg hface]
      exact ⟨_, rfl⟩
  · intro hface hnone
    rw [hstart, if_pos hface, hnone]
    simp
  · intro entries e hface hsome hmem hsuf
    have hn : e.name ∈ ((entries.filter fun x => pyEndswith x.name ".txt").map DirEntry.name) :=
      List.mem_map_of_mem _ (List.mem_filter.mpr ⟨hmem, hsuf⟩)
    have hemp : ((entries.filter fun x => pyEndswith x.name ".txt").map DirEntry.name).isEmpty
        = false :=
      Bool.eq_false_iff.mpr fun hc => List.ne_nil_of_mem hn (List.isEmpty_iff.mp hc)
    refine ⟨_, ?_, hn⟩
    rw [hstart, if_pos hface, hsome]
    simp only [Option.getD_some]
    rw [if_neg (by simp [hemp])]

/-- Witness for `c10_startup_scan`: a prompts directory whose only entry named
`sub.txt` is itself a directory is still scanned in, and a filesystem with no
prompts directory at all ends in the fatal empty-prompt-set exit. -/
theorem c10_witness :
    (∃ names,
      startup { dirs := [(PROMPTS_FOLDER, [{ name := "sub.txt", isDir := true }])], files := [REF_FACE_PATH] } =
        Except.ok (StartupOutcome.ready names) ∧ "sub.txt" ∈ names) ∧
    startup { dirs := [], files := [REF_FACE_PATH] } =
      Except.ok StartupOutcome.fatalNoPrompts :=
  ⟨(c10_startup_scan _).2.2.2 [{ name := "sub.txt", isDir := true }]
      { name := "sub.txt", isDir := true } (by decide) rfl (by decide) (by decide),
   (c10_startup_scan _).2.2.1 (by decide) rfl⟩
